import Mathlib

/-!
Verification of `ml_lib/lstm_net.py` (class `LSTM_Net`) against its
specification.

The module under study is configuration plumbing around an external tensor
library (PyTorch): the constructor wires an LSTM encoder, a list of dense
layers, dropout and activations; `forward` runs the fixed pipeline;
`init_hidden` allocates zero state.  The embedding below mirrors the Python
source line by line:

* tensors carry an allocation identity, a dtype, a shape and exact rational
  data (float rounding is not modelled; none of the properties below is about
  rounding);
* object allocation (`nn.Linear`, `nn.LSTM` parameter creation, `weight.new`)
  threads an explicit allocation counter, so that distinctness of storage is
  visible;
* the external library's random initializer and the LSTM recurrence itself are
  out of scope for the source file (they live in PyTorch); they enter the
  embedding as the fields of a `TorchLib` record that the constructor consumes,
  and theorems that need the recurrence to be shape-correct assume exactly
  that;
* the base class `Model` is not part of the sources. Modelled from the spec:
  it provides save/load, device-placement and train/eval scaffolding and owns
  no learnable parameters of its own, so it contributes nothing to the
  parameter collection;
* PyTorch's `nn.Module` attribute registration is modelled as it behaves:
  module-valued attributes (`self.dropout`, `self.actv`, `self.lstm`,
  `self.out`) are registered submodules whose parameters appear in
  `self.parameters()`; a plain Python list (`self.fc = []`) is not a module
  and is not traversed.
-/

namespace StockLSTM

/-- Numeric precision tag of a tensor. -/
inductive DType where
  | float32
  | float64
deriving DecidableEq, Repr

/-- A tensor: allocation identity, dtype, shape, and row-major rational data.
`id` models object identity of the underlying storage; two tensors with
different `id` are independent allocations (mutating one cannot affect the
other). -/
structure Tensor where
  id : Nat
  dtype : DType
  shape : List Nat
  data : List ℚ
deriving DecidableEq, Repr

/-- `x.float()`: coerce to float32. Values are carried exactly. -/
def tensorFloat (t : Tensor) : Tensor :=
  { t with dtype := DType.float32 }

/-- `nn.Linear(in_features, out_features)`: weight of shape
`[outF, inF]`, bias of shape `[outF]`. -/
structure Linear where
  inF : Nat
  outF : Nat
  weight : Tensor
  bias : Tensor
deriving DecidableEq, Repr

/-- `nn.Dropout(p)`: parameter-free module remembering its probability. -/
structure Dropout where
  p : ℚ
deriving DecidableEq, Repr

/-- `nn.LSTM(input_dim, hidden_dim, n_layers, dropout=...)`.  The recurrence
itself is the library's; the module records its configuration, its registered
parameter tensors (per layer: `weight_ih`, `weight_hh`, `bias_ih`, `bias_hh`),
and the library-supplied run behaviour
(`run training input (h0, c0) = (full output, final (h, c))`). -/
structure LSTM where
  inputDim : Nat
  hiddenDim : Nat
  nLayers : Nat
  dropoutP : ℚ
  params : List Tensor
  run : Bool → Tensor → Tensor × Tensor → Tensor × (Tensor × Tensor)

/-- The external tensor library, as far as the constructor consumes it:
a default random initializer for fresh parameter storage (a function of the
allocation id and the shape), and the recurrent primitive (a function of the
layer configuration, its parameters, the dropout probability, the training
flag, the input and the initial state). -/
structure TorchLib where
  randData : Nat → List Nat → List ℚ
  lstmRun : Nat → Nat → Nat → List Tensor → ℚ → Bool → Tensor →
      Tensor × Tensor → Tensor × (Tensor × Tensor)

/-- Allocate a fresh tensor with library-default random data.  PyTorch's
default parameter dtype is float32. -/
def newParam (lib : TorchLib) (shape : List Nat) (cnt : Nat) : Tensor × Nat :=
  (⟨cnt, DType.float32, shape, lib.randData cnt shape⟩, cnt + 1)

/-- `nn.Linear(inF, outF)` constructor: allocates weight then bias.
Zero-sized dimensions are legal (the library allocates empty storage). -/
def mkLinear (lib : TorchLib) (inF outF : Nat) (cnt : Nat) : Linear × Nat :=
  let w := newParam lib [outF, inF] cnt
  let b := newParam lib [outF] w.2
  (⟨inF, outF, w.1, b.1⟩, b.2)

/-- Allocate the LSTM's parameters in PyTorch registration order: for each
layer `l`, `weight_ih_l{l}` of shape `[4*hidden, in]` (where `in` is
`inputDim` for layer 0 and `hiddenDim` afterwards), `weight_hh_l{l}` of shape
`[4*hidden, hidden]`, `bias_ih_l{l}` and `bias_hh_l{l}` of shape
`[4*hidden]`. -/
def mkLSTMParams (lib : TorchLib) (inputDim hiddenDim : Nat) :
    Nat → Nat → List Tensor × Nat
  | 0, cnt => ([], cnt)
  | n + 1, cnt =>
    let wih := newParam lib [4 * hiddenDim, inputDim] cnt
    let whh := newParam lib [4 * hiddenDim, hiddenDim] wih.2
    let bih := newParam lib [4 * hiddenDim] whh.2
    let bhh := newParam lib [4 * hiddenDim] bih.2
    let rest := mkLSTMParams lib hiddenDim hiddenDim n bhh.2
    (wih.1 :: whh.1 :: bih.1 :: bhh.1 :: rest.1, rest.2)

/-- `nn.LSTM` constructor. -/
def mkLSTM (lib : TorchLib) (inputDim hiddenDim nLayers : Nat) (dropoutP : ℚ)
    (cnt : Nat) : LSTM × Nat :=
  let r := mkLSTMParams lib inputDim hiddenDim nLayers cnt
  (⟨inputDim, hiddenDim, nLayers, dropoutP, r.1,
    lib.lstmRun inputDim hiddenDim nLayers r.1 dropoutP⟩, r.2)

/-- Constructor arguments of `LSTM_Net.__init__`, with the source's names and
defaults.  The optional terminal activation is an elementwise module applied
to a tensor. -/
structure Config where
  fc : List Nat
  input_dim : Nat
  output_dim : Nat
  hidden_dim : Nat
  n_layers : Nat
  non_seq_dim : Option Nat := none
  dropout : ℚ := 1 / 2
  out_actv : Option (Tensor → Tensor) := none

/-- Python truthiness of the optional width in
`hidden_dim + (non_seq_dim if non_seq_dim else 0)`: both `None` and `0` are
falsy and contribute `0`, which coincides with `Option.getD 0` on naturals. -/
def truthyOr0 : Option Nat → Nat
  | none => 0
  | some n => n

/-- The model instance: the attributes `__init__` assigns, plus the
`hidden` attribute that only `forward` ever assigns (absent — `none` — until
then) and the inherited train/eval mode flag (PyTorch modules start in
training mode). -/
structure LSTM_Net where
  n_layers : Nat
  hidden_dim : Nat
  dropout : Dropout
  out_actv : Option (Tensor → Tensor)
  lstm : LSTM
  fc : List Linear
  out : Linear
  hidden : Option (Tensor × Tensor) := none
  training : Bool := true

/-- The loop
`for i, neurons in enumerate(fc): self.fc.append(nn.Linear(prev_out, neurons)); prev_out = neurons`:
returns the built layers in order, the final `prev_out`, and the allocation
counter. -/
def buildFC (lib : TorchLib) : List Nat → Nat → Nat → List Linear × Nat × Nat
  | [], prev, cnt => ([], prev, cnt)
  | neurons :: rest, prev, cnt =>
    let l := mkLinear lib prev neurons cnt
    let r := buildFC lib rest neurons l.2
    (l.1 :: r.1, r.2.1, r.2.2)

/-- `self.float()` (line 66): converts the parameters of the registered
submodules to float32.  The layers inside the plain list `self.fc` are not
registered, hence not converted either — invisible here since the default
dtype is already float32, but mirrored faithfully. -/
def floatNet (m : LSTM_Net) : LSTM_Net :=
  { m with
    lstm := { m.lstm with params := m.lstm.params.map tensorFloat }
    out := { m.out with weight := tensorFloat m.out.weight,
                        bias := tensorFloat m.out.bias } }

/-- `LSTM_Net.__init__`, line by line.  Note the order of lines 50–51: the
dense-head dropout module is built from the caller's `dropout` BEFORE the
single-layer zeroing `if n_layers == 1: dropout = 0`, which only affects the
value handed to `nn.LSTM`.  The constructor performs no validation of its
arguments. -/
def init (lib : TorchLib) (cfg : Config) (cnt : Nat) : LSTM_Net × Nat :=
  let dropoutMod : Dropout := ⟨cfg.dropout⟩
  let lstmDropout : ℚ := if cfg.n_layers = 1 then 0 else cfg.dropout
  let rl := mkLSTM lib cfg.input_dim cfg.hidden_dim cfg.n_layers lstmDropout cnt
  let prev_out := cfg.hidden_dim + truthyOr0 cfg.non_seq_dim
  let rf := buildFC lib cfg.fc prev_out rl.2
  let ro := mkLinear lib rf.2.1 cfg.output_dim rf.2.2
  (floatNet
    { n_layers := cfg.n_layers
      hidden_dim := cfg.hidden_dim
      dropout := dropoutMod
      out_actv := cfg.out_actv
      lstm := rl.1
      fc := rf.1
      out := ro.1
      hidden := none
      training := true }, ro.2)

/-- `self.parameters()` under PyTorch registration semantics: parameters of
the registered submodules in attribute-assignment order — `dropout` and the
ReLU contribute none, then the LSTM's, then the output layer's.  The plain
Python list `self.fc` is not a registered submodule, so the dense layers'
weights and biases do NOT appear here.  The base `Model` is modelled from the
spec: scaffolding with no learnable parameters of its own. -/
def LSTM_Net.parameters (m : LSTM_Net) : List Tensor :=
  m.lstm.params ++ [m.out.weight, m.out.bias]

/-- The parameter collection the specification describes: recurrent layer
weights/biases, each dense layer's weight/bias, output layer's weight/bias.
Stated from the spec's words, for comparison with `LSTM_Net.parameters`. -/
def LSTM_Net.specParameters (m : LSTM_Net) : List Tensor :=
  m.lstm.params ++ (m.fc.flatMap fun l => [l.weight, l.bias]) ++
    [m.out.weight, m.out.bias]

/-- Fallback tensor for `headD`; `parameters` is never empty (the output
layer is always registered), so it is never reached. -/
def dummyTensor : Tensor := ⟨0, DType.float32, [], []⟩

/-- `init_hidden` (lines 100–117): `weight = next(self.parameters()).data`,
then two fresh zero-filled tensors of shape `(n_layers, batch_size,
hidden_dim)` in the dtype of that first parameter (`weight.new(...).zero_()`
allocates new storage matching `weight`'s dtype). -/
def LSTM_Net.init_hidden (m : LSTM_Net) (batch_size : Nat) (cnt : Nat) :
    (Tensor × Tensor) × Nat :=
  let dt := (m.parameters.headD dummyTensor).dtype
  let sz := m.n_layers * batch_size * m.hidden_dim
  let h : Tensor :=
    ⟨cnt, dt, [m.n_layers, batch_size, m.hidden_dim], List.replicate sz 0⟩
  let c : Tensor :=
    ⟨cnt + 1, dt, [m.n_layers, batch_size, m.hidden_dim], List.replicate sz 0⟩
  ((h, c), cnt + 2)

/-- Runtime errors the forward pass can surface (all raised by the tensor
library or the Python runtime, never by defensive checks of this module). -/
inductive Err where
  | linearShapeMismatch (expected got : Nat)
  | catMismatch (b1 b2 : Nat)
  | shapeMismatch (got : List Nat)
  | indexError
  | attributeError (missing : String)
deriving DecidableEq, Repr

/-- Dot product of two rational rows. -/
def dot (xs ys : List ℚ) : ℚ :=
  (xs.zip ys).foldl (fun a p => a + p.1 * p.2) 0

/-- Row `i` of width-`w` row-major data. -/
def row (d : List ℚ) (w i : Nat) : List ℚ :=
  (d.drop (i * w)).take w

/-- Application of `nn.Linear` to a 2-d batch: requires the feature width to
match `inF`; a mismatch is the library's matrix-multiplication shape error.
`out[i][j] = bias[j] + Σ_k x[i][k] * weight[j][k]`. -/
def linearApply (l : Linear) (x : Tensor) : Except Err Tensor :=
  match x.shape with
  | [b, f] =>
    if f = l.inF then
      Except.ok ⟨0, x.dtype, [b, l.outF],
        (List.range b).flatMap fun i =>
          (List.range l.outF).map fun j =>
            l.bias.data.getD j 0 + dot (row x.data f i) (row l.weight.data l.inF j)⟩
    else Except.error (Err.linearShapeMismatch l.inF f)
  | s => Except.error (Err.shapeMismatch s)

/-- `nn.ReLU()` application: elementwise `max 0`, shape preserved. -/
def reluApply (x : Tensor) : Tensor :=
  { x with data := x.data.map fun q => max q 0 }

/-- `nn.Dropout` application.  In inference mode it is the identity; in
training mode the library draws a keep/drop mask (taken here as an oracle)
and scales kept elements by `1 / (1 - p)`.  Shape is preserved either way. -/
def dropoutApply (d : Dropout) (training : Bool) (mask : Nat → Bool)
    (x : Tensor) : Tensor :=
  if training then
    { x with data := x.data.enum.map fun p =>
        if mask p.1 then p.2 / (1 - d.p) else 0 }
  else x

/-- `lstm_out[:, -1, :]`: keep the last timestep of a `[b, s, f]` tensor.
Negative indexing on an empty dimension (`s = 0`) is the runtime's
IndexError. -/
def lastTimestep (t : Tensor) : Except Err Tensor :=
  match t.shape with
  | [b, s, f] =>
    if s = 0 then Except.error Err.indexError
    else
      Except.ok ⟨0, t.dtype, [b, f],
        (List.range b).flatMap fun i => row t.data f (i * s + (s - 1))⟩
  | s => Except.error (Err.shapeMismatch s)

/-- `torch.cat((a, b), dim=1)` on 2-d tensors: batch dimensions must agree. -/
def cat1 (a b : Tensor) : Except Err Tensor :=
  match a.shape, b.shape with
  | [m, f1], [n, f2] =>
    if m = n then
      Except.ok ⟨0, a.dtype, [m, f1 + f2],
        (List.range m).flatMap fun i => row a.data f1 i ++ row b.data f2 i⟩
    else Except.error (Err.catMismatch m n)
  | s1, _ => Except.error (Err.shapeMismatch s1)

/-- The dense-head loop
`for l in self.fc: dense = l(dense); dense = self.actv(dense); dense = self.dropout(dense)`.
`i` indexes the layer for the dropout mask oracle. -/
def denseStack (d : Dropout) (training : Bool) (mask : Nat → Nat → Bool) :
    List Linear → Nat → Tensor → Except Err Tensor
  | [], _, x => Except.ok x
  | l :: rest, i, x => do
    let y ← linearApply l x
    let y := reluApply y
    let y := dropoutApply d training (mask i) y
    denseStack d training mask rest (i + 1) y

/-- `forward` (lines 68–98), line by line.  The result is the pair of the
computation's outcome and the model instance after the call: line 82 assigns
`self.hidden` (a genuine write to the instance) before anything can fail, so
the instance is returned alongside even when the pipeline errors.  Line 97
reads `if self.out_actv: out = self.out_atcv(out)` — `out_atcv` is an
attribute that is never assigned anywhere on the instance, so when a terminal
activation IS configured the lookup raises AttributeError instead of applying
it. -/
def LSTM_Net.forward (m : LSTM_Net) (x0 : Tensor) (non_seq : Option Tensor)
    (mask : Nat → Nat → Bool) (cnt : Nat) :
    Except Err Tensor × LSTM_Net × Nat :=
  let x := tensorFloat x0
  let batch_size := x.shape.headD 0
  let rh := m.init_hidden batch_size cnt
  let rl := m.lstm.run m.training x rh.1
  let lstmOutFull := rl.1
  let m1 := { m with hidden := some rl.2 }
  let res : Except Err Tensor := do
    let lstm_out ← lastTimestep lstmOutFull
    let dense ← match non_seq with
      | none => Except.ok lstm_out
      | some ns => cat1 lstm_out (tensorFloat ns)
    let dense ← denseStack m1.dropout m1.training mask m1.fc 0 dense
    let out ← linearApply m1.out dense
    match m1.out_actv with
    | some _ => Except.error (Err.attributeError "out_atcv")
    | none => Except.ok out
  (res, m1, rh.2)

/-! ## Concrete instances used to evaluate the embedding -/

/-- A concrete, shape-correct instantiation of the external library:
zero-initialized parameter storage, and a recurrence returning the
correctly-shaped all-zero output with empty final-state tensors. -/
def lib0 : TorchLib where
  randData := fun _ s => List.replicate s.prod 0
  lstmRun := fun _ hd _ _ _ _ x _ =>
    let b := x.shape.headD 0
    let s := (x.shape.drop 1).headD 0
    (⟨0, DType.float32, [b, s, hd], List.replicate (b * s * hd) 0⟩,
     (⟨0, DType.float32, [], []⟩, ⟨0, DType.float32, [], []⟩))

/-- Shape-correctness of a built recurrent module: on an input of shape
`[b, s, inputDim]` the full output has shape `[b, s, hiddenDim]`.  This is
the (library-provided) contract of `nn.LSTM` with `batch_first=True`. -/
def LSTM.ShapeOk (l : LSTM) : Prop :=
  ∀ (tr : Bool) (x : Tensor) (h : Tensor × Tensor) (b s : Nat),
    x.shape = [b, s, l.inputDim] →
    ((l.run tr x h).1).shape = [b, s, l.hiddenDim]

/-- The configuration of the source file's own `__main__` test. -/
def mainCfg : Config :=
  { fc := [128], input_dim := 100, output_dim := 1, hidden_dim := 128,
    n_layers := 1, non_seq_dim := some 5, dropout := 1 / 2 }

/-- A trivial dropout-mask oracle (keep everything). -/
def mask0 : Nat → Nat → Bool := fun _ _ => true

/-- `lib0`'s recurrence is shape-correct on every constructed model. -/
theorem lib0_lstm_shapeOk (cfg : Config) (cnt : Nat) :
    ((init lib0 cfg cnt).1).lstm.ShapeOk := by
  intro tr x h b s hx
  simp only [init, floatNet, mkLSTM] at hx ⊢
  simp [lib0, hx]

end StockLSTM

namespace StockLSTM

/-! ## Further concrete configurations -/

/-- Tiny configuration WITH a terminal activation configured (identity). -/
def actvCfg : Config :=
  { fc := [], input_dim := 1, output_dim := 1, hidden_dim := 1, n_layers := 1,
    out_actv := some (fun t => t) }

/-- Small valid configuration with a terminal activation (ReLU). -/
def actvCfg2 : Config :=
  { fc := [], input_dim := 2, output_dim := 1, hidden_dim := 2, n_layers := 1,
    out_actv := some reluApply }

/-- Minimal configuration with no optional features. -/
def plainCfg : Config :=
  { fc := [], input_dim := 1, output_dim := 1, hidden_dim := 1, n_layers := 1 }

/-- `mainCfg` with a zero output width. -/
def zeroOutCfg : Config := { mainCfg with output_dim := 0 }

/-- The `__main__` test's input batch: 32 sequences of length 16 with 100
features, all zeros. -/
def x32 : Tensor := ⟨0, DType.float32, [32, 16, 100], List.replicate 51200 0⟩

/-- The `__main__` test's auxiliary batch: 32 vectors of width 5, all zeros. -/
def ns32 : Tensor := ⟨0, DType.float32, [32, 5], List.replicate 160 0⟩

/-- A 1×1×1 zero input. -/
def x111 : Tensor := ⟨0, DType.float32, [1, 1, 1], [0]⟩

/-- A 1×1×2 zero input. -/
def x112 : Tensor := ⟨0, DType.float32, [1, 1, 2], [0, 0]⟩

/-! ## Shape lemmas for the primitive operations -/

theorem tensorFloat_shape (t : Tensor) : (tensorFloat t).shape = t.shape := rfl

theorem reluApply_shape (t : Tensor) : (reluApply t).shape = t.shape := rfl

theorem dropoutApply_shape (d : Dropout) (tr : Bool) (mask : Nat → Bool)
    (t : Tensor) : (dropoutApply d tr mask t).shape = t.shape := by
  unfold dropoutApply
  split <;> rfl

theorem linearApply_ok (l : Linear) (x : Tensor) (b : Nat)
    (hx : x.shape = [b, l.inF]) :
    ∃ y, linearApply l x = Except.ok y ∧ y.shape = [b, l.outF] := by
  unfold linearApply
  rw [hx]
  simp

theorem linearApply_mismatch (l : Linear) (x : Tensor) (b f : Nat)
    (hx : x.shape = [b, f]) (hne : f ≠ l.inF) :
    linearApply l x = Except.error (Err.linearShapeMismatch l.inF f) := by
  unfold linearApply
  rw [hx]
  simp [hne]

theorem lastTimestep_ok (t : Tensor) (b s f : Nat)
    (ht : t.shape = [b, s, f]) (hs : s ≠ 0) :
    ∃ y, lastTimestep t = Except.ok y ∧ y.shape = [b, f] := by
  unfold lastTimestep
  rw [ht]
  simp [hs]

theorem cat1_ok (a b : Tensor) (m f1 f2 : Nat)
    (ha : a.shape = [m, f1]) (hb : b.shape = [m, f2]) :
    ∃ y, cat1 a b = Except.ok y ∧ y.shape = [m, f1 + f2] := by
  unfold cat1
  rw [ha, hb]
  simp

/-- The dense stack preserves well-formed width chaining: if the layers' input
widths are chained from `w` through their output widths, the stack succeeds on
a `[b, w]` tensor and produces a `[b, last output width]` tensor. -/
theorem denseStack_ok (d : Dropout) (tr : Bool) (mask : Nat → Nat → Bool) :
    ∀ (layers : List Linear) (i b w : Nat) (x : Tensor),
      x.shape = [b, w] →
      layers.map Linear.inF = (w :: layers.map Linear.outF).dropLast →
      ∃ y, denseStack d tr mask layers i x = Except.ok y ∧
        y.shape = [b, (layers.map Linear.outF).getLastD w]
  | [], i, b, w, x, hx, _ => ⟨x, rfl, by simpa using hx⟩
  | l :: rest, i, b, w, x, hx, hchain => by
    have hchain' := hchain
    simp only [List.map_cons, List.dropLast_cons₂] at hchain'
    obtain ⟨hinF, hrest⟩ := List.cons_eq_cons.mp hchain'
    obtain ⟨y1, hy1, hy1s⟩ := linearApply_ok l x b (hinF ▸ hx)
    have hshape2 :
        (dropoutApply d tr (mask i) (reluApply y1)).shape = [b, l.outF] := by
      rw [dropoutApply_shape, reluApply_shape, hy1s]
    obtain ⟨y2, hy2, hy2s⟩ :=
      denseStack_ok d tr mask rest (i + 1) b l.outF
        (dropoutApply d tr (mask i) (reluApply y1)) hshape2 hrest
    refine ⟨y2, ?_, ?_⟩
    · unfold denseStack
      rw [hy1]
      exact hy2
    · rw [List.map_cons, List.getLastD_cons]
      exact hy2s

end StockLSTM
namespace StockLSTM

/-! ## Constructor wiring lemmas -/

/-- Characterization of the dense-stack construction loop: input widths chain
from `prev` through the configured widths, output widths are the configured
widths in order, and the running width ends at the last configured width (or
at `prev` when the list is empty). -/
theorem buildFC_spec (lib : TorchLib) :
    ∀ (ws : List Nat) (prev cnt : Nat),
      ((buildFC lib ws prev cnt).1).map Linear.inF = (prev :: ws).dropLast ∧
      ((buildFC lib ws prev cnt).1).map Linear.outF = ws ∧
      (buildFC lib ws prev cnt).2.1 = ws.getLastD prev
  | [], _, _ => ⟨rfl, rfl, rfl⟩
  | n :: rest, prev, cnt => by
    obtain ⟨h1, h2, h3⟩ := buildFC_spec lib rest n (mkLinear lib prev n cnt).2
    refine ⟨?_, ?_, ?_⟩
    · show prev :: ((buildFC lib rest n (mkLinear lib prev n cnt).2).1).map
        Linear.inF = (prev :: n :: rest).dropLast
      rw [h1, List.dropLast_cons₂]
    · show n :: ((buildFC lib rest n (mkLinear lib prev n cnt).2).1).map
        Linear.outF = n :: rest
      rw [h2]
    · show (buildFC lib rest n (mkLinear lib prev n cnt).2).2.1 =
        (n :: rest).getLastD prev
      rw [h3, List.getLastD_cons]

theorem except_bind_ok {ε α β : Type} (a : α) (f : α → Except ε β) :
    (Except.ok a : Except ε α) >>= f = f a := rfl

theorem except_bind_error {ε α β : Type} (e : ε) (f : α → Except ε β) :
    (Except.error e : Except ε α) >>= f = Except.error e := rfl

/-- Claim C3: construction wires the layer widths as the spec says — the
first dense layer's input width is `hidden_dim` plus the auxiliary width
(0 when unset), each subsequent dense layer's input width is the previous
layer's output width with the widths taken in order from `fc`, and the output
layer maps the last dense width (or the fused width when `fc` is empty) to
`output_dim`. -/
theorem dense_wiring (lib : TorchLib) (cfg : Config) (cnt : Nat) :
    ((init lib cfg cnt).1).fc.map Linear.inF =
      ((cfg.hidden_dim + truthyOr0 cfg.non_seq_dim) :: cfg.fc).dropLast ∧
    ((init lib cfg cnt).1).fc.map Linear.outF = cfg.fc ∧
    ((init lib cfg cnt).1).out.inF =
      cfg.fc.getLastD (cfg.hidden_dim + truthyOr0 cfg.non_seq_dim) ∧
    ((init lib cfg cnt).1).out.outF = cfg.output_dim := by
  obtain ⟨h1, h2, h3⟩ := buildFC_spec lib cfg.fc
    (cfg.hidden_dim + truthyOr0 cfg.non_seq_dim)
    (mkLSTM lib cfg.input_dim cfg.hidden_dim cfg.n_layers
      (if cfg.n_layers = 1 then 0 else cfg.dropout) cnt).2
  exact ⟨h1, h2, h3, rfl⟩

/-- Claim C6: the inter-layer dropout probability handed to `nn.LSTM` at
construction is forced to 0 when `n_layers = 1` (line 51) and is the supplied
value otherwise. -/
theorem lstm_dropout_zero_single_layer (lib : TorchLib) (cfg : Config)
    (cnt : Nat) :
    ((init lib cfg cnt).1).lstm.dropoutP =
      if cfg.n_layers = 1 then 0 else cfg.dropout := rfl

/-- Claim C10: the dense-head dropout module is built from the
constructor-supplied probability BEFORE the single-layer zeroing (line 50
precedes line 51), so with `n_layers = 1` the dropout applied after each
dense layer in `forward` (which applies `self.dropout`) still carries the
original probability, while only the recurrent layer's inter-layer dropout is
forced to 0. -/
theorem dense_dropout_not_zeroed (lib : TorchLib) (cfg : Config) (cnt : Nat)
    (h1 : cfg.n_layers = 1) :
    ((init lib cfg cnt).1).dropout.p = cfg.dropout ∧
    ((init lib cfg cnt).1).lstm.dropoutP = 0 := by
  refine ⟨rfl, ?_⟩
  show (if cfg.n_layers = 1 then (0 : ℚ) else cfg.dropout) = 0
  rw [if_pos h1]

theorem dense_dropout_not_zeroed_witness :
    mainCfg.n_layers = 1 ∧
    (((init lib0 mainCfg 0).1).dropout.p = mainCfg.dropout ∧
      ((init lib0 mainCfg 0).1).lstm.dropoutP = 0) :=
  ⟨rfl, dense_dropout_not_zeroed lib0 mainCfg 0 rfl⟩

/-- Claim C2 (code bug): at the source's own test configuration, the model's
registered parameter collection contains the LSTM's four parameter tensors
(allocation ids 0–3) and the output layer's weight and bias (ids 6–7), but
NOT the dense layer's weight and bias (ids 4–5): `self.fc` is a plain Python
list, not a registered submodule, so an external optimizer iterating
`parameters()` would never see the dense layers.  The collection the spec
describes (`specParameters`) contains all eight. -/
theorem fc_params_not_registered :
    ((init lib0 mainCfg 0).1).parameters.map Tensor.id = [0, 1, 2, 3, 6, 7] ∧
    ((init lib0 mainCfg 0).1).specParameters.map Tensor.id =
      [0, 1, 2, 3, 4, 5, 6, 7] ∧
    ((init lib0 mainCfg 0).1).fc.map (fun l => l.weight.id) = [4] ∧
    ((init lib0 mainCfg 0).1).fc.map (fun l => l.bias.id) = [5] ∧
    ¬ (4 ∈ ((init lib0 mainCfg 0).1).parameters.map Tensor.id) ∧
    ¬ (5 ∈ ((init lib0 mainCfg 0).1).parameters.map Tensor.id) := by decide

/-- Claim C5: `init_hidden` returns two freshly-allocated zero-filled tensors
of shape `(n_layers, batch_size, hidden_dim)` in the dtype of the model's
first registered parameter (the collection is never empty); shapes and
contents depend only on the configuration and the batch size (not on the
allocator), the two tensors of one call are distinct allocations, and so are
the four tensors of two successive calls — mutating one cannot affect
another. -/
theorem init_hidden_pure_zero (m : LSTM_Net) (b cnt : Nat) :
    m.parameters ≠ [] ∧
    (m.init_hidden b cnt).1.1.shape = [m.n_layers, b, m.hidden_dim] ∧
    (m.init_hidden b cnt).1.2.shape = [m.n_layers, b, m.hidden_dim] ∧
    (m.init_hidden b cnt).1.1.data =
      List.replicate (m.n_layers * b * m.hidden_dim) 0 ∧
    (m.init_hidden b cnt).1.2.data =
      List.replicate (m.n_layers * b * m.hidden_dim) 0 ∧
    (m.init_hidden b cnt).1.1.dtype = (m.parameters.headD dummyTensor).dtype ∧
    (m.init_hidden b cnt).1.2.dtype = (m.parameters.headD dummyTensor).dtype ∧
    (m.init_hidden b cnt).1.1.id ≠ (m.init_hidden b cnt).1.2.id ∧
    (∀ cnt2 : Nat,
      (m.init_hidden b cnt2).1.1.shape = (m.init_hidden b cnt).1.1.shape ∧
      (m.init_hidden b cnt2).1.1.data = (m.init_hidden b cnt).1.1.data ∧
      (m.init_hidden b cnt2).1.2.shape = (m.init_hidden b cnt).1.2.shape ∧
      (m.init_hidden b cnt2).1.2.data = (m.init_hidden b cnt).1.2.data) ∧
    ((m.init_hidden b cnt).1.1.id ≠
        (m.init_hidden b (m.init_hidden b cnt).2).1.1.id ∧
      (m.init_hidden b cnt).1.1.id ≠
        (m.init_hidden b (m.init_hidden b cnt).2).1.2.id ∧
      (m.init_hidden b cnt).1.2.id ≠
        (m.init_hidden b (m.init_hidden b cnt).2).1.1.id ∧
      (m.init_hidden b cnt).1.2.id ≠
        (m.init_hidden b (m.init_hidden b cnt).2).1.2.id) := by
  refine ⟨?_, rfl, rfl, rfl, rfl, rfl, rfl, ?_,
    fun cnt2 => ⟨rfl, rfl, rfl, rfl⟩, ?_, ?_, ?_, ?_⟩
  · simp [LSTM_Net.parameters]
  · show cnt ≠ cnt + 1
    omega
  · show cnt ≠ cnt + 2
    omega
  · show cnt ≠ cnt + 2 + 1
    omega
  · show cnt + 1 ≠ cnt + 2
    omega
  · show cnt + 1 ≠ cnt + 2 + 1
    omega

/-- Claim C1 (code bug): with a terminal output activation configured, line
97 (`if self.out_actv: out = self.out_atcv(out)`) reads the never-assigned
attribute `out_atcv`, so `forward` raises AttributeError instead of applying
the configured activation to the final linear output. -/
theorem out_actv_attribute_error :
    ((init lib0 actvCfg 0).1).out_actv.isSome = true ∧
    (((init lib0 actvCfg 0).1).forward x111 none mask0 0).1 =
      Except.error (Err.attributeError "out_atcv") := ⟨rfl, rfl⟩

end StockLSTM
namespace StockLSTM

/-- A batch with an empty sequence dimension. -/
def x101 : Tensor := ⟨0, DType.float32, [1, 0, 1], []⟩

/-- Claim C8 counterexample: a configuration with a non-positive declared
width (`output_dim = 0`) completes construction — the constructor contains no
validation, and the library accepts a zero-width linear layer — so
construction does not "fail fast with a configuration error". -/
theorem construction_accepts_zero_width :
    ((init lib0 zeroOutCfg 0).1).out.outF = 0 ∧
    ((init lib0 zeroOutCfg 0).1).out.inF = 128 ∧
    ((init lib0 zeroOutCfg 0).1).fc.map Linear.outF = [128] ∧
    ((init lib0 zeroOutCfg 0).1).lstm.nLayers = 1 := by decide

/-- Claim C8 (amended): `__init__` performs no validation at all — for every
configuration, including ones with zero widths, construction completes and
wires every layer; any error for a malformed configuration would have to come
from the underlying library, not from this module. -/
theorem init_total_no_validation (lib : TorchLib) (cfg : Config) (cnt : Nat) :
    ((init lib cfg cnt).1).out.outF = cfg.output_dim ∧
    ((init lib cfg cnt).1).fc.length = cfg.fc.length ∧
    ((init lib cfg cnt).1).n_layers = cfg.n_layers ∧
    ((init lib cfg cnt).1).lstm.nLayers = cfg.n_layers := by
  refine ⟨rfl, ?_, rfl, rfl⟩
  have h2 := (buildFC_spec lib cfg.fc
    (cfg.hidden_dim + truthyOr0 cfg.non_seq_dim)
    (mkLSTM lib cfg.input_dim cfg.hidden_dim cfg.n_layers
      (if cfg.n_layers = 1 then 0 else cfg.dropout) cnt).2).2.1
  have h2' : ((init lib cfg cnt).1).fc.map Linear.outF = cfg.fc := h2
  calc ((init lib cfg cnt).1).fc.length
      = (((init lib cfg cnt).1).fc.map Linear.outF).length :=
        (List.length_map _ _).symm
    _ = cfg.fc.length := by rw [h2']

/-- Claim C9 counterexample: before any call the instance has no `hidden`
attribute; after one `forward` call the instance carries one — line 82
(`lstm_out, self.hidden = self.lstm(...)`) writes to the model instance, so
`forward` is not free of side effects on the instance. -/
theorem forward_writes_hidden :
    ((init lib0 plainCfg 0).1).hidden = none ∧
    (((init lib0 plainCfg 0).1).forward x111 none mask0 0).2.1.hidden ≠
      none := by decide

/-- Claim C9 (amended): the only write `forward` performs on the instance is
the (re)assignment of the diagnostic `hidden` attribute: every other
field — parameters, configuration, submodules, mode — is unchanged, and the
call's entire result is independent of whatever `hidden` held before, so
calls remain stateless with respect to prior calls. -/
theorem forward_frame (m : LSTM_Net) (x : Tensor) (ns : Option Tensor)
    (mask : Nat → Nat → Bool) (cnt : Nat) :
    (m.forward x ns mask cnt).2.1.n_layers = m.n_layers ∧
    (m.forward x ns mask cnt).2.1.hidden_dim = m.hidden_dim ∧
    (m.forward x ns mask cnt).2.1.dropout = m.dropout ∧
    (m.forward x ns mask cnt).2.1.out_actv = m.out_actv ∧
    (m.forward x ns mask cnt).2.1.lstm = m.lstm ∧
    (m.forward x ns mask cnt).2.1.fc = m.fc ∧
    (m.forward x ns mask cnt).2.1.out = m.out ∧
    (m.forward x ns mask cnt).2.1.training = m.training ∧
    (∀ h0 : Option (Tensor × Tensor),
      LSTM_Net.forward { m with hidden := h0 } x ns mask cnt =
        m.forward x ns mask cnt) := by
  cases m
  exact ⟨rfl, rfl, rfl, rfl, rfl, rfl, rfl, rfl, fun h0 => rfl⟩

end StockLSTM
namespace StockLSTM

/-- Success of the whole forward pipeline over an arbitrary model whose
dense-path widths chain correctly: used to settle the shape claims. -/
theorem forward_ok_aux (m : LSTM_Net) (x : Tensor) (ns : Option Tensor)
    (mask : Nat → Nat → Bool) (cnt : Nat) (b s fused : Nat)
    (hrun : m.lstm.ShapeOk)
    (hx : x.shape = [b, s, m.lstm.inputDim])
    (hs : s ≠ 0)
    (hfused : (ns = none ∧ fused = m.lstm.hiddenDim) ∨
      (∃ t w, ns = some t ∧ t.shape = [b, w] ∧ fused = m.lstm.hiddenDim + w))
    (hchain : m.fc.map Linear.inF = (fused :: m.fc.map Linear.outF).dropLast)
    (houtIn : m.out.inF = (m.fc.map Linear.outF).getLastD fused)
    (hact : m.out_actv = none) :
    ∃ y, (m.forward x ns mask cnt).1 = Except.ok y ∧
      y.shape = [b, m.out.outF] := by
  have hxf : (tensorFloat x).shape = [b, s, m.lstm.inputDim] := hx
  have hlout := hrun m.training (tensorFloat x)
    (m.init_hidden ((tensorFloat x).shape.headD 0) cnt).1 b s hxf
  obtain ⟨t1, ht1, ht1s⟩ := lastTimestep_ok
    ((m.lstm.run m.training (tensorFloat x)
      (m.init_hidden ((tensorFloat x).shape.headD 0) cnt).1).1)
    b s m.lstm.hiddenDim hlout hs
  rcases hfused with ⟨hns, hf⟩ | ⟨t, w, hns, hts, hf⟩
  · subst hns
    subst hf
    obtain ⟨y2, hy2, hy2s⟩ :=
      denseStack_ok m.dropout m.training mask m.fc 0 b m.lstm.hiddenDim t1
        ht1s hchain
    obtain ⟨y3, hy3, hy3s⟩ :=
      linearApply_ok m.out y2 b (by rw [hy2s, houtIn])
    refine ⟨y3, ?_, hy3s⟩
    simp only [LSTM_Net.forward]
    rw [ht1]
    simp only [except_bind_ok]
    rw [hy2]
    simp only [except_bind_ok]
    rw [hy3]
    simp only [except_bind_ok, hact]
  · subst hns
    subst hf
    have htsf : (tensorFloat t).shape = [b, w] := hts
    obtain ⟨d, hd, hds⟩ :=
      cat1_ok t1 (tensorFloat t) b m.lstm.hiddenDim w ht1s htsf
    obtain ⟨y2, hy2, hy2s⟩ :=
      denseStack_ok m.dropout m.training mask m.fc 0 b
        (m.lstm.hiddenDim + w) d hds hchain
    obtain ⟨y3, hy3, hy3s⟩ :=
      linearApply_ok m.out y2 b (by rw [hy2s, houtIn])
    refine ⟨y3, ?_, hy3s⟩
    simp only [LSTM_Net.forward]
    rw [ht1]
    simp only [except_bind_ok]
    rw [hd]
    simp only [except_bind_ok]
    rw [hy2]
    simp only [except_bind_ok]
    rw [hy3]
    simp only [except_bind_ok, hact]

end StockLSTM
namespace StockLSTM

/-- Claim C4 (amended): for every configuration with positive declared widths
and NO terminal activation, given a shape-correct recurrent primitive, an
input batch of shape `(b, s, input_dim)` with a non-empty sequence dimension,
and an auxiliary batch of shape `(b, w)` exactly when `non_seq_dim = some w`,
`forward` raises no error and returns a tensor of shape `(b, output_dim)`.
(The unamended claim fails for otherwise-valid configurations that set a
terminal activation, and for empty sequences — see the counterexample.) -/
theorem forward_output_shape (lib : TorchLib) (cfg : Config) (cnt cnt2 : Nat)
    (x : Tensor) (non_seq : Option Tensor) (b s : Nat)
    (mask : Nat → Nat → Bool)
    (hpos : 0 < cfg.input_dim ∧ 0 < cfg.output_dim ∧ 0 < cfg.hidden_dim ∧
      0 < cfg.n_layers ∧ ∀ w ∈ cfg.fc, 0 < w)
    (hact : cfg.out_actv = none)
    (hrun : ((init lib cfg cnt).1).lstm.ShapeOk)
    (hx : x.shape = [b, s, cfg.input_dim])
    (hs : s ≠ 0)
    (hns : (cfg.non_seq_dim = none ∧ non_seq = none) ∨
      (∃ w t, cfg.non_seq_dim = some w ∧ non_seq = some t ∧
        t.shape = [b, w])) :
    ∃ y, (((init lib cfg cnt).1).forward x non_seq mask cnt2).1 =
      Except.ok y ∧ y.shape = [b, cfg.output_dim] := by
  obtain ⟨h1, h2, h3⟩ := buildFC_spec lib cfg.fc
    (cfg.hidden_dim + truthyOr0 cfg.non_seq_dim)
    (mkLSTM lib cfg.input_dim cfg.hidden_dim cfg.n_layers
      (if cfg.n_layers = 1 then 0 else cfg.dropout) cnt).2
  have h1' : ((init lib cfg cnt).1).fc.map Linear.inF =
      ((cfg.hidden_dim + truthyOr0 cfg.non_seq_dim) :: cfg.fc).dropLast := h1
  have h2' : ((init lib cfg cnt).1).fc.map Linear.outF = cfg.fc := h2
  have h3' : ((init lib cfg cnt).1).out.inF =
      cfg.fc.getLastD (cfg.hidden_dim + truthyOr0 cfg.non_seq_dim) := h3
  apply forward_ok_aux (init lib cfg cnt).1 x non_seq mask cnt2 b s
    (cfg.hidden_dim + truthyOr0 cfg.non_seq_dim) hrun hx hs
  · rcases hns with ⟨hn, hq⟩ | ⟨w, t, hw, hnst, hts⟩
    · refine Or.inl ⟨hq, ?_⟩
      rw [hn]
      exact rfl
    · refine Or.inr ⟨t, w, hnst, hts, ?_⟩
      rw [hw]
      exact rfl
  · rw [h2', h1']
  · rw [h2', h3']
  · exact hact

/-- Claim C4 counterexamples to the unamended universal: a valid
configuration (all widths positive, matching zero input) WITH a configured
terminal activation raises AttributeError instead of returning a
`(batch, output_dim)` tensor; and a batch with sequence length 0 raises
IndexError. -/
theorem forward_output_shape_cex :
    (((init lib0 actvCfg2 0).1).forward x112 none mask0 0).1 =
      Except.error (Err.attributeError "out_atcv") ∧
    (((init lib0 plainCfg 0).1).forward x101 none mask0 0).1 =
      Except.error Err.indexError := ⟨rfl, rfl⟩

theorem forward_output_shape_witness :
    (0 < mainCfg.input_dim ∧ 0 < mainCfg.output_dim ∧
      0 < mainCfg.hidden_dim ∧ 0 < mainCfg.n_layers ∧
      ∀ w ∈ mainCfg.fc, 0 < w) ∧
    mainCfg.out_actv = none ∧ x32.shape = [32, 16, mainCfg.input_dim] ∧
    ns32.shape = [32, 5] ∧
    (∃ y, (((init lib0 mainCfg 0).1).forward x32 (some ns32) mask0 0).1 =
      Except.ok y ∧ y.shape = [32, 1]) :=
  ⟨⟨by decide, by decide, by decide, by decide, by decide⟩, rfl, rfl, rfl,
    forward_output_shape lib0 mainCfg 0 0 x32 (some ns32) 32 16 mask0
      ⟨by decide, by decide, by decide, by decide, by decide⟩ rfl
      (lib0_lstm_shapeOk mainCfg 0) rfl (by decide)
      (Or.inr ⟨5, ns32, rfl, rfl, rfl⟩)⟩

end StockLSTM
namespace StockLSTM

/-- Claim C7: when the model was constructed with an auxiliary width
(`non_seq_dim = some w`, `w > 0`) and a non-empty dense stack, calling
`forward` without the auxiliary input hands the first dense layer a feature
width of only `hidden_dim` while the layer expects `hidden_dim + w`: the call
fails with the library's shape-mismatch error at the first dense layer
instead of succeeding. -/
theorem missing_non_seq_shape_error (lib : TorchLib) (cfg : Config)
    (cnt cnt2 : Nat) (x : Tensor) (b s w n1 : Nat) (ws : List Nat)
    (mask : Nat → Nat → Bool)
    (hnsd : cfg.non_seq_dim = some w) (hw : 0 < w)
    (hfc : cfg.fc = n1 :: ws)
    (hrun : ((init lib cfg cnt).1).lstm.ShapeOk)
    (hx : x.shape = [b, s, cfg.input_dim]) (hs : s ≠ 0) :
    (((init lib cfg cnt).1).forward x none mask cnt2).1 =
      Except.error (Err.linearShapeMismatch (cfg.hidden_dim + w)
        cfg.hidden_dim) := by
  have h1 := (buildFC_spec lib cfg.fc
    (cfg.hidden_dim + truthyOr0 cfg.non_seq_dim)
    (mkLSTM lib cfg.input_dim cfg.hidden_dim cfg.n_layers
      (if cfg.n_layers = 1 then 0 else cfg.dropout) cnt).2).1
  have h1' : ((init lib cfg cnt).1).fc.map Linear.inF =
      ((cfg.hidden_dim + truthyOr0 cfg.non_seq_dim) :: cfg.fc).dropLast := h1
  have hxf : (tensorFloat x).shape =
      [b, s, ((init lib cfg cnt).1).lstm.inputDim] := hx
  have hlout := hrun ((init lib cfg cnt).1).training (tensorFloat x)
    (((init lib cfg cnt).1).init_hidden
      ((tensorFloat x).shape.headD 0) cnt2).1 b s hxf
  obtain ⟨t1, ht1, ht1s⟩ := lastTimestep_ok
    ((((init lib cfg cnt).1).lstm.run ((init lib cfg cnt).1).training
      (tensorFloat x)
      (((init lib cfg cnt).1).init_hidden
        ((tensorFloat x).shape.headD 0) cnt2).1).1)
    b s ((init lib cfg cnt).1).lstm.hiddenDim hlout hs
  have ht1s' : t1.shape = [b, cfg.hidden_dim] := ht1s
  cases hmfc : ((init lib cfg cnt).1).fc with
  | nil =>
    rw [hmfc, hfc] at h1'
    simp at h1'
  | cons l rest =>
    rw [hmfc, hfc, List.map_cons, List.dropLast_cons₂] at h1'
    obtain ⟨hlinF, -⟩ := List.cons_eq_cons.mp h1'
    rw [hnsd] at hlinF
    have hlinF' : l.inF = cfg.hidden_dim + w := hlinF
    have hne : cfg.hidden_dim ≠ l.inF := by
      rw [hlinF']
      omega
    have hlm := linearApply_mismatch l t1 b cfg.hidden_dim ht1s' hne
    simp only [LSTM_Net.forward]
    rw [ht1]
    simp only [except_bind_ok]
    rw [hmfc]
    simp only [denseStack]
    rw [hlm]
    simp only [except_bind_error, hlinF']

theorem missing_non_seq_shape_error_witness :
    mainCfg.non_seq_dim = some 5 ∧ 0 < 5 ∧ mainCfg.fc = 128 :: [] ∧
    x32.shape = [32, 16, mainCfg.input_dim] ∧
    (((init lib0 mainCfg 0).1).forward x32 none mask0 0).1 =
      Except.error (Err.linearShapeMismatch 133 128) :=
  ⟨rfl, by decide, rfl, rfl,
    missing_non_seq_shape_error lib0 mainCfg 0 0 x32 32 16 5 128 [] mask0
      rfl (by decide) rfl (lib0_lstm_shapeOk mainCfg 0) rfl (by decide)⟩

end StockLSTM
